import Mathlib

/-!
Verification of the Abakion Flow Caller (`src/flowCaller.js`).

The JavaScript helper is shallowly embedded here:

* Strings and their placeholder formatting (`_formatString`, `_getString`)
  are executable Lean functions over `String`/`List Char`.
* JavaScript truthiness on possibly-undefined strings is made explicit via
  `Option String` and `truthy`.
* The asynchronous, effectful functions (`callFlowWithConfirmation`,
  `_processRecords`, `callFlowWithCustomFields`) are embedded as pure
  functions producing a list of `Effect`s (the observable trace: dialogs,
  network calls, console logs, refreshes).  The oracle inputs (the user's
  confirmation answer, the environment-variable query result, each fetch
  outcome, and the order in which the concurrent fetches settle) are
  explicit parameters.
* `_getEnvironmentVariable` is embedded against an explicit store of
  environment-variable definitions (with optional current-value override),
  mirroring the fetchXml query it issues.
-/

namespace FlowCaller

/-- JavaScript truthiness for a possibly-undefined/null string value:
`none` models `undefined`/`null` (falsy); the empty string is also falsy. -/
def truthy : Option String → Bool
  | none => false
  | some s => !(s == "")

/-- JavaScript `a || b` on possibly-undefined string values. -/
def jsOr (a b : Option String) : Option String :=
  if truthy a then a else b

/-- JavaScript `a || b || c` on possibly-undefined string values. -/
def jsOr3 (a b c : Option String) : Option String :=
  jsOr a (jsOr b c)

/-- `s.replace(/[{}]/g, "")`: remove every brace character. -/
def stripBraces (s : String) : String :=
  ⟨s.data.filter (fun c => !(c == '{' || c == '}'))⟩

/-- Decimal digits to a natural number (`parseInt` semantics for pure digits). -/
def digitsToNat (ds : List Char) : Nat :=
  ds.foldl (fun n c => n * 10 + (c.toNat - 48)) 0

/-- JavaScript array indexing with a captured digit string: the property name
is an array index only when it is the canonical decimal representation, so a
leading zero on a multi-digit capture (e.g. `{00}`) never hits an element. -/
def canonicalIndex (ds : List Char) : Option Nat :=
  match ds with
  | [] => none
  | c :: rest =>
    if c == '0' && !rest.isEmpty then none
    else some (digitsToNat (c :: rest))

/-- Scanner for `_formatString`'s `template.replace(/\x7b(\d+)\x7d/g, ...)`.
The second argument carries the reversed digits read so far after an opening
brace (`none` = ordinary scanning).  A matched `\x7b(\d+)\x7d` whose index has a
defined value is replaced by that value; otherwise the match is kept. -/
def fmtAux (values : List String) : Option (List Char) → List Char → List Char
  | none, [] => []
  | some ds, [] => '{' :: ds.reverse
  | none, c :: rest =>
    if c == '{' then fmtAux values (some []) rest
    else c :: fmtAux values none rest
  | some ds, c :: rest =>
    if c.isDigit then fmtAux values (some (c :: ds)) rest
    else if c == '}' then
      match ds with
      | [] => '{' :: '}' :: fmtAux values none rest
      | _ :: _ =>
        match (canonicalIndex ds.reverse).bind (fun i => values.get? i) with
        | some v => v.data ++ fmtAux values none rest
        | none => '{' :: ds.reverse ++ ('}' :: fmtAux values none rest)
    else if c == '{' then ('{' :: ds.reverse) ++ fmtAux values (some []) rest
    else ('{' :: ds.reverse) ++ (c :: fmtAux values none rest)

/-- `_formatString(template, values)`: substitute positional `\x7bn\x7d`
placeholders; a placeholder with no supplied value is left unchanged. -/
def formatString (template : String) (values : List String) : String :=
  ⟨fmtAux values none template.data⟩

/-- One step of JavaScript `String.prototype.replace` with a *string* pattern:
replace only the first occurrence. -/
def replFirstAux (pat repl : List Char) : List Char → List Char
  | [] => []
  | c :: rest =>
    if pat.isPrefixOf (c :: rest) then repl ++ (c :: rest).drop pat.length
    else c :: replFirstAux pat repl rest

/-- JavaScript `s.replace(pat, repl)` with a string pattern (first occurrence
only; an empty pattern matches at position 0). -/
def replaceFirst (s pat repl : String) : String :=
  if pat == "" then repl ++ s
  else ⟨replFirstAux pat.data repl.data s.data⟩

/-- The compiled-in English string table (`LOCALIZED_STRINGS["en"]`); the
model fixes `_currentLanguage = "en"`, the source default. -/
def LOCALIZED_STRINGS_en : List (String × String) := [
  ("noRecordsSelected", "Please select at least one record."),
  ("envVarNotFound", "Environment variable not found: {0}"),
  ("envVarRetrievalFailed", "Environment variable retrieval failed: {0}"),
  ("processing", "Processing {0} record(s)"),
  ("completed", "Completed"),
  ("defaultSuccessMessage", "{0} record(s) processed successfully"),
  ("recordsFailed", "{0} record(s) failed"),
  ("confirmTitle", "Confirm Action"),
  ("confirmButton", "Yes"),
  ("cancelButton", "Cancel"),
  ("flowUrlNotFound", "Flow URL not found: {0}"),
  ("flowExecutionFailed", "Flow execution failed for record {0}: HTTP {1}"),
  ("networkError", "Network error for record {0}"),
  ("timelineRefreshWarning", "Timeline refresh failed"),
  ("notSupported", "Not supported"),
  ("onlySingleRecord", "This function only supports single records from form."),
  ("configurationError", "Configuration Error"),
  ("success", "Success"),
  ("error", "Error"),
  ("errorWhenCallingFlow", "Error when calling flow: {0}"),
  ("errorWhenRetrievingVariable", "Error when retrieving environment variable: {0}"),
  ("flowCompletedSuccessfully", "Flow completed successfully!"),
  ("flowStartedSuccessfully", "Flow started successfully!"),
  ("sendingDataToFlow", "Sending data to flow...")
]

/-- `_getString(key)` with no values: `strings[key] || key`. -/
def getString0 (key : String) : String :=
  match LOCALIZED_STRINGS_en.lookup key with
  | some t => if t == "" then key else t
  | none => key

/-- `_getString(key, values)` at a call site passing a single *string* value:
JavaScript's `if (values)` makes an empty string behave as "no values", in
which case the raw template is returned unformatted. -/
def getStringStr (key : String) (v : String) : String :=
  if v == "" then getString0 key
  else formatString (getString0 key) [v]

/-- `_getString(key, values)` at a call site passing a single *number* value:
JavaScript's `if (values)` makes the number 0 behave as "no values", in which
case the raw template is returned unformatted. -/
def getStringNum (key : String) (n : Nat) : String :=
  if n == 0 then getString0 key
  else formatString (getString0 key) [toString n]

/-- One entry of `selectedItemReferences` (or a record built internally):
each field is `none` when the corresponding JavaScript property is
undefined.  `getIdResult` models the value `record.getId()` would return. -/
structure ItemRef where
  Id : Option String
  id : Option String
  TypeName : Option String
  etn : Option String
  entityType : Option String
  getIdResult : Option String
  deriving DecidableEq, Repr

/-- One selected grid row: `getData().entity.getId()` and
`getData().entity.getEntityName()`. -/
structure GridRow where
  rowId : String
  rowEntityName : String
  deriving DecidableEq, Repr

/-- The caller-supplied `primaryControl`, plus the oracle describing how its
host-UI collaborators behave: `hasGrid` is the truthiness of
`primaryControl.getGrid`; `gridSelection` is the selected-rows list (its
length is `getSelectedRows().getLength()` and its elements `getAll()`);
`hasFormData` is the truthiness of `primaryControl.data && primaryControl.data.entity`;
`formAttributes` maps attribute names to `getValue()` results (an entry with
value `none` is an attribute whose value is null); `timelinePresent` is the
truthiness of `getControl("Timeline")` and of its `refresh` member;
`timelineRefreshThrows` says whether the timeline refresh attempt throws. -/
structure Control where
  hasGrid : Bool
  gridSelection : List GridRow
  hasFormData : Bool
  formId : String
  formEntityName : String
  formAttributes : List (String × Option String)
  timelinePresent : Bool
  timelineRefreshThrows : Bool
  deriving DecidableEq, Repr

/-- The body `{id, entityName}` built by `_processRecords`; a `none` field
models a JavaScript `undefined` (omitted by `JSON.stringify`). -/
structure FlowBody where
  id : Option String
  entityName : Option String
  deriving DecidableEq, Repr

/-- One outbound `fetch` issued by `_processRecords`. -/
structure FlowRequest where
  url : String
  method : String
  contentType : String
  body : FlowBody
  deriving DecidableEq, Repr

/-- The body built by `callFlowWithCustomFields`: `{id, entityName}` plus one
extra property per requested field name whose attribute exists on the form. -/
structure CustomBody where
  id : String
  entityName : String
  extra : List (String × Option String)
  deriving DecidableEq, Repr

/-- One outbound `fetch` issued by `callFlowWithCustomFields`. -/
structure CustomRequest where
  url : String
  method : String
  contentType : String
  body : CustomBody
  deriving DecidableEq, Repr

/-- Outcome of one `fetch` in `_processRecords`: an HTTP response with a
status, or a transport-level rejection. -/
inductive FetchResult where
  | response (status : Nat)
  | netError (msg : String)
  deriving DecidableEq, Repr

/-- `response.ok`: status in the inclusive range 200–299. -/
def responseOk (status : Nat) : Bool :=
  decide (200 ≤ status) && decide (status ≤ 299)

/-- Whether an outcome increments the success counter. -/
def FetchResult.isOk : FetchResult → Bool
  | .response s => responseOk s
  | .netError _ => false

/-- Outcome of the single `fetch` in `callFlowWithCustomFields`: the extra
flag says whether `response.json()` succeeds on a successful response. -/
inductive CustomFetchResult where
  | response (status : Nat) (bodyParses : Bool)
  | netError (msg : String)
  deriving DecidableEq, Repr

/-- One observable effect of an invocation.  Console log payloads are modelled
structurally (the data logged, not the formatted text). -/
inductive Effect where
  | showProgress (text : String)
  | closeProgress
  | confirmDialog (text title confirmLabel cancelLabel : String)
  | alertDialog (text : String) (title : Option String)
  | envLookup (name : String)
  | dispatch (req : FlowRequest)
  | dispatchCustom (req : CustomRequest)
  | settled (idx : Nat) (ok : Bool)
  | consoleErrorHttp (recordId : Option String) (status : Nat)
  | consoleErrorNet (recordId : Option String) (msg : String)
  | consoleErrorFlowCall (msg : String)
  | consoleWarnTimeline
  | timelineRefreshAttempt
  | gridRefresh
  | formRefresh
  deriving DecidableEq, Repr

/-- Network effects: the Dataverse environment-variable query and the webhook
`fetch`es. -/
def Effect.isNetworkCall : Effect → Bool
  | .envLookup _ => true
  | .dispatch _ => true
  | .dispatchCustom _ => true
  | _ => false

/-- A `_processRecords` webhook dispatch. -/
def Effect.isDispatch : Effect → Bool
  | .dispatch _ => true
  | _ => false

/-- An alert dialog (the only user-facing message besides the confirm). -/
def Effect.isAlert : Effect → Bool
  | .alertDialog _ _ => true
  | _ => false

/-- A settle event of one in-flight request. -/
def Effect.isSettled : Effect → Bool
  | .settled _ _ => true
  | _ => false

/-- A UI refresh effect (grid refresh, form data refresh, timeline attempt). -/
def Effect.isRefresh : Effect → Bool
  | .timelineRefreshAttempt => true
  | .gridRefresh => true
  | .formRefresh => true
  | _ => false

/-! ## Environment variable lookup (`_getEnvironmentVariable`) -/

/-- One `environmentvariabledefinition` row with its (at most one, per the
`top 1` fetch) outer-joined `environmentvariablevalue`: `overrideValue` is the
joined `environmentvariablevalue1.value`, `none` when no value row exists or
the column is null. -/
structure EnvDefinition where
  schemaname : String
  defaultvalue : Option String
  overrideValue : Option String
  deriving DecidableEq, Repr

/-- The fetchXml query: `top 1` over definitions whose `schemaname` equals
`name` (first match wins). -/
def envQuery (store : List EnvDefinition) (name : String) : Option EnvDefinition :=
  (store.filter (fun d => d.schemaname == name)).head?

/-- `_getEnvironmentVariable(variableName)`: on a matching definition it
resolves `entities[0]["environmentvariablevalue1.value"] || entities[0].defaultvalue`
(the resolved value may itself be undefined); with no matching definition it
rejects with the "not found" error. -/
def getEnvironmentVariable (store : List EnvDefinition) (name : String) :
    Except String (Option String) :=
  match envQuery store name with
  | some d => .ok (jsOr d.overrideValue d.defaultvalue)
  | none => .error ("Environment variable not found: " ++ name)

/-! ## Context resolution (`callFlowWithConfirmation`, lines 192–243) -/

/-- Result of the record-resolution phase: `aborted` is the
"no records selected" alert-and-return taken inside the grid branch (empty
selection) or the final `else` branch. -/
inductive ResolveOutcome where
  | aborted
  | resolved (records : List ItemRef) (entityName : Option String)
  deriving DecidableEq, Repr

/-- A record built internally from a grid row:
`{Id: row id, TypeName: row entity name}`. -/
def gridItem (row : GridRow) : ItemRef :=
  { Id := some row.rowId, id := none, TypeName := some row.rowEntityName,
    etn := none, entityType := none, getIdResult := none }

/-- The three mutually exclusive context checks of `callFlowWithConfirmation`:
a non-empty `selectedItemReferences` wins outright (entity name =
`[0].TypeName || [0].etn || [0].entityType`); else a grid control reads its
selection (empty selection aborts; the id is used verbatim here); else a form
control yields one record with braces stripped from its id; else abort. -/
def resolveContext (refs : Option (List ItemRef)) (ctrl : Control) : ResolveOutcome :=
  match refs with
  | some (e :: rest) =>
    .resolved (e :: rest) (jsOr3 e.TypeName e.etn e.entityType)
  | _ =>
    if ctrl.hasGrid then
      match ctrl.gridSelection with
      | [] => .aborted
      | row0 :: rows =>
        .resolved ((row0 :: rows).map gridItem) (some row0.rowEntityName)
    else if ctrl.hasFormData then
      .resolved
        [{ Id := some (stripBraces ctrl.formId), id := none,
           TypeName := some ctrl.formEntityName, etn := none,
           entityType := none, getIdResult := none }]
        (some ctrl.formEntityName)
    else .aborted

/-- Result of resolution followed by the secondary `selectedRecords.length === 0`
check at line 238. -/
inductive Phase1Result where
  | abortedNoRecords
  | abortedEmptyAfter
  | proceed (records : List ItemRef) (entityName : Option String)
  deriving DecidableEq, Repr

/-- Context resolution plus the secondary empty-batch check (line 238). -/
def phase1 (refs : Option (List ItemRef)) (ctrl : Control) : Phase1Result :=
  match resolveContext refs ctrl with
  | .aborted => .abortedNoRecords
  | .resolved rs en =>
    if rs.length == 0 then .abortedEmptyAfter else .proceed rs en

/-! ## Batch dispatch (`_processRecords`) -/

/-- `record.Id || record.id || record.getId()`. -/
def resolveRecordId (r : ItemRef) : Option String :=
  jsOr r.Id (jsOr r.id r.getIdResult)

/-- The record id actually placed in the payload: braces are stripped only
when the resolved id is truthy (`if (recordId)`); a falsy empty string is
kept as-is and an undefined id stays undefined. -/
def processedId (r : ItemRef) : Option String :=
  match resolveRecordId r with
  | none => none
  | some s => if s == "" then some s else some (stripBraces s)

/-- The request `_processRecords` issues for one record:
`POST flowUrl`, JSON content type, body `{id, entityName}`. -/
def payloadFor (flowUrl : String) (entityName : Option String) (r : ItemRef) :
    FlowRequest :=
  { url := flowUrl, method := "POST", contentType := "application/json",
    body := { id := processedId r, entityName := entityName } }

/-- Effects produced when the request for record index `jo.1` settles with
outcome `jo.2`: the settle itself, plus the console error the failure
branches log (carrying the closure's stripped record id). -/
def settleEffect (rs : List ItemRef) (jo : Nat × FetchResult) : List Effect :=
  match jo.2 with
  | .response s =>
    if responseOk s then [.settled jo.1 true]
    else [.settled jo.1 false, .consoleErrorHttp ((rs.get? jo.1).bind processedId) s]
  | .netError m =>
    [.settled jo.1 false, .consoleErrorNet ((rs.get? jo.1).bind processedId) m]

/-- Final values of the `processedCount`/`failedCount` counters after all
settles: each ok outcome increments the first, every other the second. -/
def tallySettles : List (Nat × FetchResult) → Nat × Nat
  | [] => (0, 0)
  | jo :: rest =>
    let t := tallySettles rest
    if jo.2.isOk then (t.1 + 1, t.2) else (t.1, t.2 + 1)

/-- The summary text: the custom success message (first `\x7b0\x7d` replaced by the
success count) when truthy, else `_getString("defaultSuccessMessage", count)`;
a failure line is appended when any request failed. -/
def summaryMessage (successMessage : Option String) (p f : Nat) : String :=
  let message :=
    if truthy successMessage then
      replaceFirst (successMessage.getD "") "{0}" (toString p)
    else getStringNum "defaultSuccessMessage" p
  if 0 < f then message ++ "\n" ++ getStringNum "recordsFailed" f
  else message

/-- Effects of the post-summary continuation: optional timeline refresh
attempt (form context with `refreshTimeline === true`, failures logged as a
warning), then grid refresh in grid context, else form data refresh. -/
def refreshEffects (ctrl : Control) (refreshTimeline : Bool) : List Effect :=
  (if !ctrl.hasGrid && refreshTimeline then
    Effect.timelineRefreshAttempt ::
      (if ctrl.timelinePresent && ctrl.timelineRefreshThrows then
        [Effect.consoleWarnTimeline]
      else [])
  else []) ++
  (if ctrl.hasGrid then [Effect.gridRefresh] else [Effect.formRefresh])

/-- The fan-out part of `_processRecords`: progress indicator, one `fetch`
per record (in batch order), then the settle events in arrival order
(`settles` pairs each settling request's record index with its outcome). -/
def dispatchPhase (rs : List ItemRef) (en : Option String) (flowUrl : String)
    (settles : List (Nat × FetchResult)) : List Effect :=
  Effect.showProgress (getStringNum "processing" rs.length) ::
    (rs.map (fun r => Effect.dispatch (payloadFor flowUrl en r)) ++
      (settles.map (settleEffect rs)).flatten)

/-- The `Promise.all` continuation of `_processRecords`: close the progress
indicator, show the summary alert, then run the refresh logic. -/
def summaryPhase (ctrl : Control) (sm : Option String) (rt : Bool)
    (settles : List (Nat × FetchResult)) : List Effect :=
  Effect.closeProgress ::
    Effect.alertDialog
      (summaryMessage sm (tallySettles settles).1 (tallySettles settles).2)
      (some (getString0 "completed")) ::
    refreshEffects ctrl rt

/-- `_processRecords(selectedRecords, entityName, flowUrl, primaryControl,
successMessage, refreshTimeline)` as a trace, given the per-arrival settle
list. -/
def processRecordsTrace (rs : List ItemRef) (en : Option String)
    (flowUrl : String) (ctrl : Control) (sm : Option String) (rt : Bool)
    (settles : List (Nat × FetchResult)) : List Effect :=
  dispatchPhase rs en flowUrl settles ++ summaryPhase ctrl sm rt settles

/-! ## `callFlowWithConfirmation` end to end -/

/-- The whole of `callFlowWithConfirmation` as a trace.  Oracles: `confirmed`
is `result.confirmed` from the confirm dialog; `envResult` is how the
`_getEnvironmentVariable` promise settles; `settles` is the arrival order and
outcome of the per-record fetches. -/
def callFlowWithConfirmation (refs : Option (List ItemRef)) (ctrl : Control)
    (envVarName confirmationText : String) (successMessage : Option String)
    (refreshTimeline : Bool) (confirmed : Bool)
    (envResult : Except String (Option String))
    (settles : List (Nat × FetchResult)) : List Effect :=
  match phase1 refs ctrl with
  | .abortedNoRecords => [.alertDialog (getString0 "noRecordsSelected") none]
  | .abortedEmptyAfter => [.alertDialog (getString0 "noRecordsSelected") none]
  | .proceed rs en =>
    Effect.confirmDialog (replaceFirst confirmationText "{0}" (toString rs.length))
        (getString0 "confirmTitle") (getString0 "confirmButton")
        (getString0 "cancelButton") ::
      if !confirmed then []
      else
        Effect.envLookup envVarName ::
          match envResult with
          | .error msg =>
            [.alertDialog (getStringStr "envVarRetrievalFailed" msg) none]
          | .ok flowUrl =>
            if !truthy flowUrl then
              [.alertDialog (getStringStr "envVarNotFound" envVarName) none]
            else
              processRecordsTrace rs en (flowUrl.getD "") ctrl successMessage
                refreshTimeline settles

/-! ## `callFlowWithCustomFields` -/

/-- The payload built by `callFlowWithCustomFields`: braces stripped from the
form record id, plus one extra property per requested field whose attribute
exists (`if (attribute)`), carrying `attribute.getValue()`. -/
def customPayload (ctrl : Control) (fieldNames : List String) : CustomBody :=
  { id := stripBraces ctrl.formId, entityName := ctrl.formEntityName,
    extra := fieldNames.filterMap
      (fun f => (ctrl.formAttributes.lookup f).map (fun v => (f, v))) }

/-- The response handling of `callFlowWithCustomFields` (lines 360–388):
a successful status with a JSON-parseable body alerts "flow completed" and
refreshes the form; a successful status whose body fails to parse alerts
"flow started"; a non-success status throws `HTTP <status>` into the catch
(which closes the progress indicator a second time); a transport error goes
straight to the catch. -/
def customFlowResponseTrace (res : CustomFetchResult) : List Effect :=
  match res with
  | .response s parses =>
    if responseOk s then
      Effect.closeProgress ::
        (if parses then
          [Effect.alertDialog (getString0 "flowCompletedSuccessfully")
              (some (getString0 "success")),
            Effect.formRefresh]
        else
          [Effect.alertDialog (getString0 "flowStartedSuccessfully")
              (some (getString0 "success"))])
    else
      [Effect.closeProgress, Effect.closeProgress,
        Effect.alertDialog (getStringStr "errorWhenCallingFlow" ("HTTP " ++ toString s))
          (some (getString0 "error")),
        Effect.consoleErrorFlowCall ("HTTP " ++ toString s)]
  | .netError m =>
    [Effect.closeProgress,
      Effect.alertDialog (getStringStr "errorWhenCallingFlow" m)
        (some (getString0 "error")),
      Effect.consoleErrorFlowCall m]

/-- The whole of `callFlowWithCustomFields` as a trace: grid contexts are
rejected outright; otherwise confirm, resolve the flow URL, send one POST
with the custom payload and classify its outcome. -/
def callFlowWithCustomFields (ctrl : Control)
    (envVarName confirmationText : String) (fieldNames : List String)
    (confirmed : Bool) (envResult : Except String (Option String))
    (res : CustomFetchResult) : List Effect :=
  if ctrl.hasGrid then
    [.alertDialog (getString0 "onlySingleRecord") (some (getString0 "notSupported"))]
  else
    Effect.confirmDialog (replaceFirst confirmationText "{0}" "1")
        (getString0 "confirmTitle") (getString0 "confirmButton")
        (getString0 "cancelButton") ::
      if !confirmed then []
      else
        Effect.envLookup envVarName ::
          match envResult with
          | .error msg =>
            [.alertDialog (getStringStr "errorWhenRetrievingVariable" msg)
                (some (getString0 "error"))]
          | .ok flowUrl =>
            if !truthy flowUrl then
              [.alertDialog (getStringStr "flowUrlNotFound" envVarName)
                  (some (getString0 "configurationError"))]
            else
              Effect.showProgress (getString0 "sendingDataToFlow") ::
                Effect.dispatchCustom
                  { url := flowUrl.getD "", method := "POST",
                    contentType := "application/json",
                    body := customPayload ctrl fieldNames } ::
                customFlowResponseTrace res

/-- A form-context control fixture for concrete evaluations. -/
def formCtrl : Control :=
  { hasGrid := false, gridSelection := [], hasFormData := true,
    formId := "{11111111-2222}", formEntityName := "account",
    formAttributes := [("name", some "Acme")], timelinePresent := true,
    timelineRefreshThrows := true }

/-- A grid-context control fixture with an empty selection. -/
def emptyGridCtrl : Control :=
  { hasGrid := true, gridSelection := [], hasFormData := false,
    formId := "", formEntityName := "", formAttributes := [],
    timelinePresent := false, timelineRefreshThrows := false }

/-- A grid-context control fixture with two selected rows. -/
def gridCtrl2 : Control :=
  { hasGrid := true,
    gridSelection := [⟨"{AAA}", "contact"⟩, ⟨"{BBB}", "contact"⟩],
    hasFormData := false, formId := "", formEntityName := "",
    formAttributes := [], timelinePresent := false,
    timelineRefreshThrows := false }

/-- An explicit selected-item reference fixture (id carries braces). -/
def itemA : ItemRef :=
  { Id := some "{A-1}", id := none, TypeName := some "account", etn := none,
    entityType := none, getIdResult := none }

/-- A second explicit selected-item reference fixture. -/
def itemB : ItemRef :=
  { Id := some "B-2", id := none, TypeName := some "account", etn := none,
    entityType := none, getIdResult := none }

/-! ## Helper lemmas -/

theorem resolveContext_resolved_ne_nil {refs : Option (List ItemRef)}
    {ctrl : Control} {rs : List ItemRef} {en : Option String}
    (h : resolveContext refs ctrl = ResolveOutcome.resolved rs en) :
    rs ≠ [] := by
  unfold resolveContext at h
  split at h
  · cases h
    simp
  · split at h
    · split at h
      · cases h
      · cases h
        simp
    · split at h
      · cases h
        simp
      · cases h

theorem phase1_proceed_iff {refs : Option (List ItemRef)} {ctrl : Control}
    {rs : List ItemRef} {en : Option String} :
    phase1 refs ctrl = Phase1Result.proceed rs en ↔
      resolveContext refs ctrl = ResolveOutcome.resolved rs en := by
  unfold phase1
  constructor
  · intro h
    split at h
    · cases h
    · next heq =>
      split at h
      · cases h
      · cases h
        exact heq
  · intro h
    rw [h]
    have hne := resolveContext_resolved_ne_nil h
    have : (rs.length == 0) = false := by
      simp [List.length_eq_zero, hne]
    simp [this]

theorem settleEffect_filter_settled (rs : List ItemRef)
    (jo : Nat × FetchResult) :
    (settleEffect rs jo).filter Effect.isSettled =
      [Effect.settled jo.1 jo.2.isOk] := by
  rcases jo with ⟨j, o⟩
  cases o with
  | response s =>
    by_cases hok : responseOk s <;>
      simp [settleEffect, hok, Effect.isSettled, FetchResult.isOk]
  | netError m =>
    simp [settleEffect, Effect.isSettled, FetchResult.isOk]

theorem settleEffect_filter_not (rs : List ItemRef) (jo : Nat × FetchResult)
    (p : Effect → Bool)
    (h1 : ∀ i b, p (Effect.settled i b) = false)
    (h2 : ∀ r s, p (Effect.consoleErrorHttp r s) = false)
    (h3 : ∀ r m, p (Effect.consoleErrorNet r m) = false) :
    (settleEffect rs jo).filter p = [] := by
  rcases jo with ⟨j, o⟩
  cases o with
  | response s =>
    by_cases hok : responseOk s <;>
      simp [settleEffect, hok, List.filter_cons, h1, h2]
  | netError m =>
    simp [settleEffect, List.filter_cons, h1, h3]

theorem filter_settles_flatten_not (rs : List ItemRef)
    (settles : List (Nat × FetchResult)) (p : Effect → Bool)
    (h : ∀ jo, (settleEffect rs jo).filter p = []) :
    ((settles.map (settleEffect rs)).flatten.filter p) = [] := by
  induction settles with
  | nil => rfl
  | cons jo rest ih =>
    simp only [List.map_cons, List.flatten_cons, List.filter_append, h, ih,
      List.nil_append]

theorem filter_settled_flatten (rs : List ItemRef)
    (settles : List (Nat × FetchResult)) :
    ((settles.map (settleEffect rs)).flatten.filter Effect.isSettled) =
      settles.map (fun jo => Effect.settled jo.1 jo.2.isOk) := by
  induction settles with
  | nil => rfl
  | cons jo rest ih =>
    simp only [List.map_cons, List.flatten_cons, List.filter_append, ih,
      settleEffect_filter_settled, List.cons_append, List.nil_append]

theorem refreshEffects_filter_not (ctrl : Control) (rt : Bool)
    (p : Effect → Bool)
    (h1 : p Effect.timelineRefreshAttempt = false)
    (h2 : p Effect.consoleWarnTimeline = false)
    (h3 : p Effect.gridRefresh = false)
    (h4 : p Effect.formRefresh = false) :
    (refreshEffects ctrl rt).filter p = [] := by
  unfold refreshEffects
  by_cases hg : ctrl.hasGrid <;> by_cases hrt : rt <;>
    by_cases htp : ctrl.timelinePresent && ctrl.timelineRefreshThrows <;>
      simp [hg, hrt, htp, List.filter_append, List.filter_cons, h1, h2, h3, h4]

theorem tallySettles_eq_counts (settles : List (Nat × FetchResult)) :
    tallySettles settles =
      (((settles.map Prod.snd).filter FetchResult.isOk).length,
        ((settles.map Prod.snd).filter (fun o => !o.isOk)).length) := by
  induction settles with
  | nil => rfl
  | cons jo rest ih =>
    by_cases h : jo.2.isOk <;>
      simp [tallySettles, ih, List.filter_cons, h]

theorem count_ok_add_count_fail (l : List FetchResult) :
    (l.filter FetchResult.isOk).length +
      (l.filter (fun o => !o.isOk)).length = l.length := by
  induction l with
  | nil => rfl
  | cons o rest ih =>
    by_cases h : o.isOk <;> simp [List.filter_cons, h] <;> omega

theorem settles_snd_perm {settles : List (Nat × FetchResult)}
    {outcomes : List FetchResult} (h : settles.Perm outcomes.enum) :
    (settles.map Prod.snd).Perm outcomes := by
  have := h.map Prod.snd
  rwa [List.enum_map_snd] at this

theorem ordered_of_append (u v : List Effect) (pA pB : Effect → Bool)
    (hu : ∀ e ∈ u, pB e = false) (hv : ∀ e ∈ v, pA e = false) :
    ∀ (i j : Nat) (hi : i < (u ++ v).length) (hj : j < (u ++ v).length),
      pA ((u ++ v).get ⟨i, hi⟩) = true →
      pB ((u ++ v).get ⟨j, hj⟩) = true → i < j := by
  intro i j hi hj hA hB
  have hiu : i < u.length := by
    by_contra hge
    push_neg at hge
    have hlt2 : i - u.length < v.length := by
      have h' := hi
      rw [List.length_append] at h'
      omega
    have heq : (u ++ v).get ⟨i, hi⟩ = v.get ⟨i - u.length, hlt2⟩ := by
      simpa using List.getElem_append_right hge
    rw [heq, hv _ (List.get_mem _ _ _)] at hA
    exact absurd hA (by decide)
  have hju : u.length ≤ j := by
    by_contra hlt
    push_neg at hlt
    have heq : (u ++ v).get ⟨j, hj⟩ = u.get ⟨j, hlt⟩ := by
      simpa using List.getElem_append_left hlt
    rw [heq, hu _ (List.get_mem _ _ _)] at hB
    exact absurd hB (by decide)
  omega

theorem fmtAux_literal (values : List String) (pre suf : List Char)
    (hpre : ∀ c ∈ pre, (c == '{') = false) :
    fmtAux values none (pre ++ suf) = pre ++ fmtAux values none suf := by
  induction pre with
  | nil => rfl
  | cons c cs ih =>
    have hc : (c == '{') = false := hpre c (by simp)
    have step : fmtAux values none (c :: (cs ++ suf)) =
        if c == '{' then fmtAux values (some []) (cs ++ suf)
        else c :: fmtAux values none (cs ++ suf) := rfl
    rw [List.cons_append, step, hc]
    simp only [Bool.false_eq_true, if_false]
    rw [ih (fun d hd => hpre d (by simp [hd])), List.cons_append]

theorem errorWhenCallingFlow_format (m : String) (hm : m ≠ "") :
    getStringStr "errorWhenCallingFlow" m = "Error when calling flow: " ++ m := by
  unfold getStringStr
  rw [if_neg (by simpa using hm)]
  show formatString "Error when calling flow: {0}" [m] = _
  have hsplit : ("Error when calling flow: {0}" : String).data =
      ("Error when calling flow: " : String).data ++ ['{', '0', '}'] := by
    decide
  unfold formatString
  rw [hsplit, fmtAux_literal _ _ _ (by decide)]
  show String.mk (("Error when calling flow: " : String).data ++
      (m.data ++ fmtAux [m] none [])) = _
  cases m with
  | mk cs =>
    show String.mk (_ ++ (cs ++ [])) = String.mk (_ ++ cs)
    rw [List.append_nil]

theorem dispatchPhase_filter_dispatch (rs : List ItemRef) (en : Option String)
    (url : String) (settles : List (Nat × FetchResult)) :
    (dispatchPhase rs en url settles).filter Effect.isDispatch =
      rs.map (fun r => Effect.dispatch (payloadFor url en r)) := by
  unfold dispatchPhase
  rw [List.filter_cons]
  simp only [show Effect.isDispatch (Effect.showProgress
    (getStringNum "processing" rs.length)) = false from rfl,
    Bool.false_eq_true, if_false, List.filter_append]
  rw [List.filter_map,
    show List.filter
        (Effect.isDispatch ∘ fun r => Effect.dispatch (payloadFor url en r)) rs
      = rs from List.filter_eq_self.mpr (fun a _ => rfl),
    filter_settles_flatten_not rs settles Effect.isDispatch
      (fun jo => settleEffect_filter_not rs jo Effect.isDispatch
        (fun _ _ => rfl) (fun _ _ => rfl) (fun _ _ => rfl)),
    List.append_nil]

theorem dispatchPhase_filter_settled (rs : List ItemRef) (en : Option String)
    (url : String) (settles : List (Nat × FetchResult)) :
    (dispatchPhase rs en url settles).filter Effect.isSettled =
      settles.map (fun jo => Effect.settled jo.1 jo.2.isOk) := by
  unfold dispatchPhase
  rw [List.filter_cons]
  simp only [show Effect.isSettled (Effect.showProgress
    (getStringNum "processing" rs.length)) = false from rfl,
    Bool.false_eq_true, if_false, List.filter_append]
  rw [List.filter_map,
    List.filter_eq_nil_iff.mpr (fun a _ => by simp [Function.comp,
      Effect.isSettled]),
    List.map_nil, List.nil_append, filter_settled_flatten]

theorem dispatchPhase_filter_not (rs : List ItemRef) (en : Option String)
    (url : String) (settles : List (Nat × FetchResult)) (p : Effect → Bool)
    (hprog : ∀ s, p (Effect.showProgress s) = false)
    (hdisp : ∀ req, p (Effect.dispatch req) = false)
    (h1 : ∀ i b, p (Effect.settled i b) = false)
    (h2 : ∀ r s, p (Effect.consoleErrorHttp r s) = false)
    (h3 : ∀ r m, p (Effect.consoleErrorNet r m) = false) :
    (dispatchPhase rs en url settles).filter p = [] := by
  unfold dispatchPhase
  rw [List.filter_cons]
  simp only [hprog, Bool.false_eq_true, if_false, List.filter_append]
  rw [List.filter_map,
    List.filter_eq_nil_iff.mpr (fun a _ => by simp [hdisp]),
    List.map_nil, List.nil_append,
    filter_settles_flatten_not rs settles p
      (fun jo => settleEffect_filter_not rs jo p h1 h2 h3)]

theorem summaryPhase_filter_not (ctrl : Control) (sm : Option String)
    (rt : Bool) (settles : List (Nat × FetchResult)) (p : Effect → Bool)
    (hclose : p Effect.closeProgress = false)
    (halert : ∀ s ttl, p (Effect.alertDialog s ttl) = false)
    (h1 : p Effect.timelineRefreshAttempt = false)
    (h2 : p Effect.consoleWarnTimeline = false)
    (h3 : p Effect.gridRefresh = false)
    (h4 : p Effect.formRefresh = false) :
    (summaryPhase ctrl sm rt settles).filter p = [] := by
  unfold summaryPhase
  rw [List.filter_cons, List.filter_cons]
  simp only [hclose, halert, Bool.false_eq_true, if_false]
  exact refreshEffects_filter_not ctrl rt p h1 h2 h3 h4

theorem trace_filter_dispatch (rs : List ItemRef) (en : Option String)
    (url : String) (ctrl : Control) (sm : Option String) (rt : Bool)
    (settles : List (Nat × FetchResult)) :
    (processRecordsTrace rs en url ctrl sm rt settles).filter Effect.isDispatch =
      rs.map (fun r => Effect.dispatch (payloadFor url en r)) := by
  unfold processRecordsTrace
  rw [List.filter_append, dispatchPhase_filter_dispatch,
    summaryPhase_filter_not ctrl sm rt settles Effect.isDispatch rfl
      (fun _ _ => rfl) rfl rfl rfl rfl,
    List.append_nil]

theorem trace_filter_settled (rs : List ItemRef) (en : Option String)
    (url : String) (ctrl : Control) (sm : Option String) (rt : Bool)
    (settles : List (Nat × FetchResult)) :
    (processRecordsTrace rs en url ctrl sm rt settles).filter Effect.isSettled =
      settles.map (fun jo => Effect.settled jo.1 jo.2.isOk) := by
  unfold processRecordsTrace
  rw [List.filter_append, dispatchPhase_filter_settled,
    summaryPhase_filter_not ctrl sm rt settles Effect.isSettled rfl
      (fun _ _ => rfl) rfl rfl rfl rfl,
    List.append_nil]

theorem trace_filter_alert (rs : List ItemRef) (en : Option String)
    (url : String) (ctrl : Control) (sm : Option String) (rt : Bool)
    (settles : List (Nat × FetchResult)) :
    (processRecordsTrace rs en url ctrl sm rt settles).filter Effect.isAlert =
      [Effect.alertDialog
        (summaryMessage sm (tallySettles settles).1 (tallySettles settles).2)
        (some (getString0 "completed"))] := by
  unfold processRecordsTrace
  rw [List.filter_append,
    dispatchPhase_filter_not rs en url settles Effect.isAlert
      (fun _ => rfl) (fun _ => rfl) (fun _ _ => rfl) (fun _ _ => rfl)
      (fun _ _ => rfl),
    List.nil_append]
  unfold summaryPhase
  rw [List.filter_cons, List.filter_cons]
  simp only [show Effect.isAlert Effect.closeProgress = false from rfl,
    show ∀ s ttl, Effect.isAlert (Effect.alertDialog s ttl) = true from
      fun _ _ => rfl,
    Bool.false_eq_true, if_false, if_true]
  rw [refreshEffects_filter_not ctrl rt Effect.isAlert rfl rfl rfl rfl]

theorem trace_filter_refresh (rs : List ItemRef) (en : Option String)
    (url : String) (ctrl : Control) (sm : Option String) (rt : Bool)
    (settles : List (Nat × FetchResult)) :
    (processRecordsTrace rs en url ctrl sm rt settles).filter Effect.isRefresh =
      (refreshEffects ctrl rt).filter Effect.isRefresh := by
  unfold processRecordsTrace
  rw [List.filter_append,
    dispatchPhase_filter_not rs en url settles Effect.isRefresh
      (fun _ => rfl) (fun _ => rfl) (fun _ _ => rfl) (fun _ _ => rfl)
      (fun _ _ => rfl),
    List.nil_append]
  unfold summaryPhase
  rw [List.filter_cons, List.filter_cons]
  simp only [show Effect.isRefresh Effect.closeProgress = false from rfl,
    show ∀ s ttl, Effect.isRefresh (Effect.alertDialog s ttl) = false from
      fun _ _ => rfl,
    Bool.false_eq_true, if_false]

theorem trace_split (rs : List ItemRef) (en : Option String) (url : String)
    (ctrl : Control) (sm : Option String) (rt : Bool)
    (settles : List (Nat × FetchResult)) :
    processRecordsTrace rs en url ctrl sm rt settles =
      (dispatchPhase rs en url settles ++
        [Effect.closeProgress,
          Effect.alertDialog
            (summaryMessage sm (tallySettles settles).1 (tallySettles settles).2)
            (some (getString0 "completed"))]) ++ refreshEffects ctrl rt := by
  unfold processRecordsTrace summaryPhase
  rw [List.append_assoc]
  rfl

theorem dispatchPhase_no_alert (rs : List ItemRef) (en : Option String)
    (url : String) (settles : List (Nat × FetchResult)) :
    ∀ e ∈ dispatchPhase rs en url settles, Effect.isAlert e = false := by
  intro e he
  have h := dispatchPhase_filter_not rs en url settles Effect.isAlert
    (fun _ => rfl) (fun _ => rfl) (fun _ _ => rfl) (fun _ _ => rfl)
    (fun _ _ => rfl)
  simpa using List.filter_eq_nil_iff.mp h e he

theorem dispatchPhase_no_refresh (rs : List ItemRef) (en : Option String)
    (url : String) (settles : List (Nat × FetchResult)) :
    ∀ e ∈ dispatchPhase rs en url settles, Effect.isRefresh e = false := by
  intro e he
  have h := dispatchPhase_filter_not rs en url settles Effect.isRefresh
    (fun _ => rfl) (fun _ => rfl) (fun _ _ => rfl) (fun _ _ => rfl)
    (fun _ _ => rfl)
  simpa using List.filter_eq_nil_iff.mp h e he

theorem summaryPhase_no_settled (ctrl : Control) (sm : Option String)
    (rt : Bool) (settles : List (Nat × FetchResult)) :
    ∀ e ∈ summaryPhase ctrl sm rt settles, Effect.isSettled e = false := by
  intro e he
  have h := summaryPhase_filter_not ctrl sm rt settles Effect.isSettled rfl
    (fun _ _ => rfl) rfl rfl rfl rfl
  simpa using List.filter_eq_nil_iff.mp h e he

theorem refreshEffects_no_alert (ctrl : Control) (rt : Bool) :
    ∀ e ∈ refreshEffects ctrl rt, Effect.isAlert e = false := by
  intro e he
  have h := refreshEffects_filter_not ctrl rt Effect.isAlert rfl rfl rfl rfl
  simpa using List.filter_eq_nil_iff.mp h e he

/-! ## Claim C10 -/

/-- C10: whenever context resolution completes without aborting (explicit
list, grid or form path), the resolved batch is non-empty, so the secondary
empty-batch check after resolution (line 238) is unreachable: its
"no records selected" alert can never be shown. -/
theorem secondary_empty_check_unreachable (refs : Option (List ItemRef))
    (ctrl : Control) :
    phase1 refs ctrl ≠ Phase1Result.abortedEmptyAfter := by
  unfold phase1
  split
  · simp
  · next rs en heq =>
    have hne := resolveContext_resolved_ne_nil heq
    have hlen : (rs.length == 0) = false := by
      simp [List.length_eq_zero, hne]
    simp [hlen]

/-- Concrete instance of the unreachable secondary empty-batch check. -/
theorem secondary_empty_check_unreachable_witness :
    phase1 (some [itemA]) gridCtrl2 ≠ Phase1Result.abortedEmptyAfter :=
  secondary_empty_check_unreachable (some [itemA]) gridCtrl2

/-! ## Claim C3 -/

/-- C3 counterexample: a definition whose override and default are both
absent ("neither exists") makes `_getEnvironmentVariable` resolve
successfully with an undefined value — it does not fail with "not found". -/
theorem envVar_neither_value_resolves :
    getEnvironmentVariable
        [{ schemaname := "VarX", defaultvalue := none, overrideValue := none }]
        "VarX" = Except.ok none := rfl

/-- C3 (amended): the lookup returns the override when it is present and
non-empty; an absent or empty override yields the definition's default
(itself possibly undefined); the "not found" rejection happens exactly when
no definition matches the name. -/
theorem envVar_lookup_cases (store : List EnvDefinition) (name : String)
    (d : EnvDefinition) :
    (envQuery store name = some d → ∀ v, d.overrideValue = some v → v ≠ "" →
      getEnvironmentVariable store name = Except.ok (some v)) ∧
    (envQuery store name = some d → d.overrideValue = none →
      getEnvironmentVariable store name = Except.ok d.defaultvalue) ∧
    (envQuery store name = some d → d.overrideValue = some "" →
      getEnvironmentVariable store name = Except.ok d.defaultvalue) ∧
    (envQuery store name = none →
      getEnvironmentVariable store name =
        Except.error ("Environment variable not found: " ++ name)) := by
  refine ⟨?_, ?_, ?_, ?_⟩ <;> intro hq
  · intro v hv hne
    simp [getEnvironmentVariable, hq, jsOr, truthy, hv, hne]
  · intro hv
    simp [getEnvironmentVariable, hq, jsOr, truthy, hv]
  · intro hv
    simp [getEnvironmentVariable, hq, jsOr, truthy, hv]
  · simp [getEnvironmentVariable, hq]

/-- Concrete instance: a present non-empty override wins over the default. -/
theorem envVar_lookup_cases_witness :
    getEnvironmentVariable
        [{ schemaname := "U", defaultvalue := some "D", overrideValue := some "V" }]
        "U" = Except.ok (some "V") :=
  (envVar_lookup_cases
      [{ schemaname := "U", defaultvalue := some "D", overrideValue := some "V" }]
      "U" { schemaname := "U", defaultvalue := some "D", overrideValue := some "V" }).1
    rfl "V" rfl (by decide)

/-! ## Claim C4 -/

/-- C4: a non-empty explicit reference list is used directly as the batch,
whatever the control offers (priority over grid and form contexts), and the
resolved shared type name is the first entry's type-name field, read through
the alias precedence `TypeName || etn || entityType`. -/
theorem explicit_refs_resolution (e : ItemRef) (rest : List ItemRef)
    (ctrl : Control) (t : String)
    (halias :
      (e.TypeName = some t ∧ t ≠ "") ∨
      (truthy e.TypeName = false ∧ e.etn = some t ∧ t ≠ "") ∨
      (truthy e.TypeName = false ∧ truthy e.etn = false ∧
        e.entityType = some t ∧ t ≠ "")) :
    resolveContext (some (e :: rest)) ctrl =
      ResolveOutcome.resolved (e :: rest) (some t) := by
  have hj : jsOr3 e.TypeName e.etn e.entityType = some t := by
    rcases halias with ⟨h1, h2⟩ | ⟨h0, h1, h2⟩ | ⟨h0, h0', h1, h2⟩
    · simp [jsOr3, jsOr, h1, truthy, h2]
    · simp only [jsOr3, jsOr, h0, Bool.false_eq_true, if_false, h1]
      simp [truthy, h2]
    · simp only [jsOr3, jsOr, h0, h0', Bool.false_eq_true, if_false, h1]
  simp [resolveContext, hj]

/-- Concrete instance: the explicit list wins over a grid control and the
type name comes from the first entry's `TypeName`. -/
theorem explicit_refs_resolution_witness :
    resolveContext (some [itemA, itemB]) gridCtrl2 =
      ResolveOutcome.resolved [itemA, itemB] (some "account") :=
  explicit_refs_resolution itemA [itemB] gridCtrl2 "account"
    (Or.inl ⟨rfl, by decide⟩)

/-! ## Claim C5 -/

/-- C5: a grid (list) context with an empty selection aborts before any
network call — no environment-variable lookup and no dispatch — and the
"no records selected" alert is shown exactly once. -/
theorem grid_empty_selection_aborts (refs : Option (List ItemRef))
    (ctrl : Control) (envVarName confirmationText : String)
    (sm : Option String) (rt confirmed : Bool)
    (envResult : Except String (Option String))
    (settles : List (Nat × FetchResult))
    (hrefs : refs = none ∨ refs = some [])
    (hgrid : ctrl.hasGrid = true)
    (hempty : ctrl.gridSelection = []) :
    callFlowWithConfirmation refs ctrl envVarName confirmationText sm rt
        confirmed envResult settles =
      [Effect.alertDialog (getString0 "noRecordsSelected") none] ∧
    ((callFlowWithConfirmation refs ctrl envVarName confirmationText sm rt
        confirmed envResult settles).filter Effect.isNetworkCall = []) ∧
    ((callFlowWithConfirmation refs ctrl envVarName confirmationText sm rt
        confirmed envResult settles).filter
        (fun e => e == Effect.alertDialog (getString0 "noRecordsSelected") none)).length
      = 1 := by
  have habort : phase1 refs ctrl = Phase1Result.abortedNoRecords := by
    rcases hrefs with h | h <;> subst h <;>
      simp [phase1, resolveContext, hgrid, hempty]
  have htr : callFlowWithConfirmation refs ctrl envVarName confirmationText
      sm rt confirmed envResult settles =
      [Effect.alertDialog (getString0 "noRecordsSelected") none] := by
    unfold callFlowWithConfirmation
    rw [habort]
  refine ⟨htr, ?_, ?_⟩ <;> rw [htr] <;> rfl

/-- Concrete instance of the empty-grid-selection abort. -/
theorem grid_empty_selection_aborts_witness :
    callFlowWithConfirmation none emptyGridCtrl "aba_FlowUrl" "Run {0}?"
        none false true (Except.ok (some "https://u")) [] =
      [Effect.alertDialog (getString0 "noRecordsSelected") none] :=
  (grid_empty_selection_aborts none emptyGridCtrl "aba_FlowUrl" "Run {0}?"
      none false true (Except.ok (some "https://u")) []
      (Or.inl rfl) rfl rfl).1

/-! ## Claim C6 -/

/-- C6: when the confirmation dialog is cancelled or dismissed, the
invocation ends with only the confirm dialog in its trace: no network call
of any kind (no environment-variable lookup, no dispatch), no alert, and no
refresh. -/
theorem cancelled_confirmation_silent (refs : Option (List ItemRef))
    (ctrl : Control) (envVarName confirmationText : String)
    (sm : Option String) (rt : Bool)
    (envResult : Except String (Option String))
    (settles : List (Nat × FetchResult)) (rs : List ItemRef)
    (en : Option String)
    (hres : phase1 refs ctrl = Phase1Result.proceed rs en) :
    callFlowWithConfirmation refs ctrl envVarName confirmationText sm rt
        false envResult settles =
      [Effect.confirmDialog
        (replaceFirst confirmationText "{0}" (toString rs.length))
        (getString0 "confirmTitle") (getString0 "confirmButton")
        (getString0 "cancelButton")] ∧
    ((callFlowWithConfirmation refs ctrl envVarName confirmationText sm rt
        false envResult settles).filter Effect.isNetworkCall = []) ∧
    ((callFlowWithConfirmation refs ctrl envVarName confirmationText sm rt
        false envResult settles).filter Effect.isAlert = []) ∧
    ((callFlowWithConfirmation refs ctrl envVarName confirmationText sm rt
        false envResult settles).filter Effect.isRefresh = []) := by
  have htr : callFlowWithConfirmation refs ctrl envVarName confirmationText
      sm rt false envResult settles =
      [Effect.confirmDialog
        (replaceFirst confirmationText "{0}" (toString rs.length))
        (getString0 "confirmTitle") (getString0 "confirmButton")
        (getString0 "cancelButton")] := by
    unfold callFlowWithConfirmation
    rw [hres]
    simp
  refine ⟨htr, ?_, ?_, ?_⟩ <;> rw [htr] <;> rfl

/-- Concrete instance: a dismissed confirmation on a form context produces
only the confirm dialog. -/
theorem cancelled_confirmation_silent_witness :
    callFlowWithConfirmation none formCtrl "aba_FlowUrl" "Run {0}?" none
        true false (Except.ok (some "https://u")) [] =
      [Effect.confirmDialog (replaceFirst "Run {0}?" "{0}" "1")
        (getString0 "confirmTitle") (getString0 "confirmButton")
        (getString0 "cancelButton")] :=
  (cancelled_confirmation_silent none formCtrl "aba_FlowUrl" "Run {0}?" none
      true (Except.ok (some "https://u")) []
      [{ Id := some (stripBraces formCtrl.formId), id := none,
         TypeName := some formCtrl.formEntityName, etn := none,
         entityType := none, getIdResult := none }]
      (some formCtrl.formEntityName) (by decide)).1

/-! ## Claim C1 -/

/-- C1 (failing input): one dispatched record whose request fails with HTTP
500 and no caller-supplied success message.  The summary alert's first line
is the raw default template — the success count 0 is NOT substituted,
because `_getString("defaultSuccessMessage", 0)` treats the number 0 as "no
values" and returns the template unformatted.  The failure line carries the
failure count 1 and the counters sum to the batch size as claimed. -/
theorem summary_zero_successes_literal_placeholder :
    processRecordsTrace [itemA] (some "account") "https://flow.example"
        formCtrl none false [(0, FetchResult.response 500)] =
      [Effect.showProgress "Processing 1 record(s)",
        Effect.dispatch
          { url := "https://flow.example", method := "POST",
            contentType := "application/json",
            body := { id := some "A-1", entityName := some "account" } },
        Effect.settled 0 false,
        Effect.consoleErrorHttp (some "A-1") 500,
        Effect.closeProgress,
        Effect.alertDialog
          "{0} record(s) processed successfully\n1 record(s) failed"
          (some "Completed"),
        Effect.formRefresh] ∧
    (tallySettles [(0, FetchResult.response 500)]).1 = 0 ∧
    (tallySettles [(0, FetchResult.response 500)]).2 = 1 := by
  refine ⟨?_, rfl, rfl⟩
  rfl

/-! ## Claim C2 -/

/-- C2: the dispatcher issues exactly one request per record (no retry, no
early exit on failure), every issued request settles and is classified
(the two counters sum to the batch size), and the summary alert appears
strictly after every settle event. -/
theorem summary_after_all_settled (rs : List ItemRef) (en : Option String)
    (url : String) (ctrl : Control) (sm : Option String) (rt : Bool)
    (outcomes : List FetchResult) (settles : List (Nat × FetchResult))
    (hlen : outcomes.length = rs.length)
    (hperm : settles.Perm outcomes.enum) :
    ((processRecordsTrace rs en url ctrl sm rt settles).filter
        Effect.isDispatch =
      rs.map (fun r => Effect.dispatch (payloadFor url en r))) ∧
    (((processRecordsTrace rs en url ctrl sm rt settles).filter
        Effect.isSettled).length = rs.length) ∧
    ((tallySettles settles).1 + (tallySettles settles).2 = rs.length) ∧
    (∀ (i j : Nat)
        (hi : i < (processRecordsTrace rs en url ctrl sm rt settles).length)
        (hj : j < (processRecordsTrace rs en url ctrl sm rt settles).length),
      Effect.isSettled
          ((processRecordsTrace rs en url ctrl sm rt settles).get ⟨i, hi⟩) = true →
      Effect.isAlert
          ((processRecordsTrace rs en url ctrl sm rt settles).get ⟨j, hj⟩) = true →
      i < j) := by
  have hp : (settles.map Prod.snd).Perm outcomes := settles_snd_perm hperm
  refine ⟨trace_filter_dispatch rs en url ctrl sm rt settles, ?_, ?_, ?_⟩
  · rw [trace_filter_settled, List.length_map, hperm.length_eq,
      List.enum_length, hlen]
  · have h1 := tallySettles_eq_counts settles
    rw [h1]
    calc ((settles.map Prod.snd).filter FetchResult.isOk).length +
          ((settles.map Prod.snd).filter (fun o => !o.isOk)).length
        = (outcomes.filter FetchResult.isOk).length +
            (outcomes.filter (fun o => !o.isOk)).length := by
          rw [(hp.filter FetchResult.isOk).length_eq,
            (hp.filter (fun o => !o.isOk)).length_eq]
      _ = outcomes.length := count_ok_add_count_fail outcomes
      _ = rs.length := hlen
  · exact ordered_of_append (dispatchPhase rs en url settles)
      (summaryPhase ctrl sm rt settles) Effect.isSettled Effect.isAlert
      (dispatchPhase_no_alert rs en url settles)
      (summaryPhase_no_settled ctrl sm rt settles)

/-- Concrete instance: two records, one success and one transport failure
settling out of order, classified into counters summing to the batch size. -/
theorem summary_after_all_settled_witness :
    ((processRecordsTrace [itemA, itemB] (some "account") "https://u"
        gridCtrl2 none false
        [(1, FetchResult.netError "down"), (0, FetchResult.response 204)]).filter
      Effect.isDispatch =
        [itemA, itemB].map
          (fun r => Effect.dispatch (payloadFor "https://u" (some "account") r))) ∧
    ((tallySettles
        [(1, FetchResult.netError "down"), (0, FetchResult.response 204)]).1 +
      (tallySettles
        [(1, FetchResult.netError "down"), (0, FetchResult.response 204)]).2 = 2) :=
  ⟨(summary_after_all_settled [itemA, itemB] (some "account") "https://u"
      gridCtrl2 none false [FetchResult.response 204, FetchResult.netError "down"]
      [(1, FetchResult.netError "down"), (0, FetchResult.response 204)]
      (by decide) (by decide)).1,
    (summary_after_all_settled [itemA, itemB] (some "account") "https://u"
      gridCtrl2 none false [FetchResult.response 204, FetchResult.netError "down"]
      [(1, FetchResult.netError "down"), (0, FetchResult.response 204)]
      (by decide) (by decide)).2.2.1⟩

/-! ## Claim C7 -/

/-- C7: every request dispatched by `_processRecords`, in any caller
context, is a POST to the configured URL with JSON content type and a body
of exactly the fields id and entityName; every record of the batch yields
exactly such a request; and the body id is the record's resolved identifier
with all brace characters removed. -/
theorem dispatch_request_shape (rs : List ItemRef) (en : Option String)
    (url : String) (ctrl : Control) (sm : Option String) (rt : Bool)
    (settles : List (Nat × FetchResult)) :
    (∀ r ∈ rs, Effect.dispatch (payloadFor url en r) ∈
        processRecordsTrace rs en url ctrl sm rt settles) ∧
    (∀ req : FlowRequest,
      Effect.dispatch req ∈ processRecordsTrace rs en url ctrl sm rt settles →
        req.method = "POST" ∧ req.contentType = "application/json" ∧
        req.url = url ∧ req.body.entityName = en ∧
        ∃ r ∈ rs, req.body.id = processedId r) ∧
    (∀ (r : ItemRef) (s : String), resolveRecordId r = some s →
        (payloadFor url en r).body.id = some (stripBraces s)) := by
  refine ⟨?_, ?_, ?_⟩
  · intro r hr
    unfold processRecordsTrace dispatchPhase
    apply List.mem_append_left
    apply List.mem_cons_of_mem
    apply List.mem_append_left
    exact List.mem_map_of_mem _ hr
  · intro req hmem
    have hd : Effect.dispatch req ∈
        (processRecordsTrace rs en url ctrl sm rt settles).filter
          Effect.isDispatch :=
      List.mem_filter.mpr ⟨hmem, rfl⟩
    rw [trace_filter_dispatch] at hd
    rcases List.mem_map.mp hd with ⟨r, hr, heq⟩
    have hpay : payloadFor url en r = req := by
      injection heq
    subst hpay
    exact ⟨rfl, rfl, rfl, rfl, r, hr, rfl⟩
  · intro r s hs
    show processedId r = some (stripBraces s)
    unfold processedId
    rw [hs]
    by_cases hempty : s == ""
    · have hs0 : s = "" := by simpa using hempty
      subst hs0
      rfl
    · simp [hempty]

/-- Concrete instance: the brace-carrying explicit reference is dispatched
as a POST whose body id has the braces removed. -/
theorem dispatch_request_shape_witness :
    Effect.dispatch (payloadFor "https://u" (some "account") itemA) ∈
        processRecordsTrace [itemA] (some "account") "https://u" formCtrl
          none false [(0, FetchResult.response 200)] ∧
    (payloadFor "https://u" (some "account") itemA).body.id = some "A-1" :=
  ⟨(dispatch_request_shape [itemA] (some "account") "https://u" formCtrl
      none false [(0, FetchResult.response 200)]).1 itemA (by decide),
    (dispatch_request_shape [itemA] (some "account") "https://u" formCtrl
      none false [(0, FetchResult.response 200)]).2.2 itemA "{A-1}" rfl⟩

/-! ## Claim C9 -/

/-- C9: after the summary alert (all refresh effects come strictly after
every alert), a grid context triggers exactly a grid refresh and never the
form-data refresh; a non-grid context refreshes the form data and never the
grid; in form context with the refresh flag true the timeline refresh is
attempted, and a throwing attempt only logs a console warning — the whole
trace always contains exactly one alert (the summary), so the timeline
failure is never surfaced to the user. -/
theorem summary_refresh_by_context (rs : List ItemRef) (en : Option String)
    (url : String) (ctrl : Control) (sm : Option String) (rt : Bool)
    (settles : List (Nat × FetchResult)) :
    (ctrl.hasGrid = true →
      refreshEffects ctrl rt = [Effect.gridRefresh] ∧
      Effect.formRefresh ∉ processRecordsTrace rs en url ctrl sm rt settles) ∧
    (ctrl.hasGrid = false →
      Effect.formRefresh ∈ processRecordsTrace rs en url ctrl sm rt settles ∧
      Effect.gridRefresh ∉ processRecordsTrace rs en url ctrl sm rt settles ∧
      (rt = true →
        Effect.timelineRefreshAttempt ∈
          processRecordsTrace rs en url ctrl sm rt settles ∧
        (ctrl.timelinePresent = true → ctrl.timelineRefreshThrows = true →
          Effect.consoleWarnTimeline ∈
            processRecordsTrace rs en url ctrl sm rt settles))) ∧
    (((processRecordsTrace rs en url ctrl sm rt settles).filter
        Effect.isAlert).length = 1) ∧
    (∀ (i j : Nat)
        (hi : i < (processRecordsTrace rs en url ctrl sm rt settles).length)
        (hj : j < (processRecordsTrace rs en url ctrl sm rt settles).length),
      Effect.isAlert
          ((processRecordsTrace rs en url ctrl sm rt settles).get ⟨i, hi⟩) = true →
      Effect.isRefresh
          ((processRecordsTrace rs en url ctrl sm rt settles).get ⟨j, hj⟩) = true →
      i < j) := by
  refine ⟨?_, ?_, ?_, ?_⟩
  · intro hg
    have hre : refreshEffects ctrl rt = [Effect.gridRefresh] := by
      unfold refreshEffects
      simp [hg]
    refine ⟨hre, ?_⟩
    intro hmem
    have h1 : Effect.formRefresh ∈
        (processRecordsTrace rs en url ctrl sm rt settles).filter
          Effect.isRefresh :=
      List.mem_filter.mpr ⟨hmem, rfl⟩
    rw [trace_filter_refresh, hre] at h1
    simp [Effect.isRefresh] at h1
  · intro hg
    refine ⟨?_, ?_, ?_⟩
    · rw [trace_split]
      apply List.mem_append_right
      unfold refreshEffects
      rw [hg]
      simp
    · intro hmem
      have h1 : Effect.gridRefresh ∈
          (processRecordsTrace rs en url ctrl sm rt settles).filter
            Effect.isRefresh :=
        List.mem_filter.mpr ⟨hmem, rfl⟩
      rw [trace_filter_refresh] at h1
      unfold refreshEffects at h1
      rw [hg] at h1
      by_cases hrt : rt <;>
        by_cases htl : ctrl.timelinePresent && ctrl.timelineRefreshThrows <;>
          simp [hrt, htl, List.filter_append, List.filter_cons,
            Effect.isRefresh] at h1
    · intro hrt
      constructor
      · rw [trace_split]
        apply List.mem_append_right
        unfold refreshEffects
        rw [hg, hrt]
        simp
      · intro htp htt
        rw [trace_split]
        apply List.mem_append_right
        unfold refreshEffects
        rw [hg, hrt, htp, htt]
        simp
  · rw [trace_filter_alert]
    rfl
  · rw [trace_split]
    apply ordered_of_append
    · intro e he
      rcases List.mem_append.mp he with h1 | h1
      · exact dispatchPhase_no_refresh rs en url settles e h1
      · simp only [List.mem_cons, List.not_mem_nil, or_false] at h1
        rcases h1 with rfl | rfl <;> rfl
    · exact refreshEffects_no_alert ctrl rt

/-- Concrete instance: a grid context's post-summary refresh is exactly the
grid refresh. -/
theorem summary_refresh_by_context_witness :
    refreshEffects gridCtrl2 false = [Effect.gridRefresh] :=
  ((summary_refresh_by_context [itemA] (some "contact") "https://u" gridCtrl2
      none false [(0, FetchResult.response 200)]).1 rfl).1

/-! ## Claim C8 -/

/-- C8: response classification in `callFlowWithCustomFields`: a success
status whose body parses gives the "flow completed" alert (then a form
refresh); a success status whose body does not parse gives the "flow
started" alert, not an error; a non-success status or a transport error
gives an error alert whose text is the error template with the underlying
error text substituted after the prefix. -/
theorem customFields_response_classification (s : Nat) (m : String) :
    (responseOk s = true →
      customFlowResponseTrace (CustomFetchResult.response s true) =
        [Effect.closeProgress,
          Effect.alertDialog (getString0 "flowCompletedSuccessfully")
            (some (getString0 "success")),
          Effect.formRefresh]) ∧
    (responseOk s = true →
      customFlowResponseTrace (CustomFetchResult.response s false) =
        [Effect.closeProgress,
          Effect.alertDialog (getString0 "flowStartedSuccessfully")
            (some (getString0 "success"))]) ∧
    (responseOk s = false → ∀ parses,
      customFlowResponseTrace (CustomFetchResult.response s parses) =
        [Effect.closeProgress, Effect.closeProgress,
          Effect.alertDialog
            ("Error when calling flow: " ++ ("HTTP " ++ toString s))
            (some (getString0 "error")),
          Effect.consoleErrorFlowCall ("HTTP " ++ toString s)]) ∧
    (m ≠ "" →
      customFlowResponseTrace (CustomFetchResult.netError m) =
        [Effect.closeProgress,
          Effect.alertDialog ("Error when calling flow: " ++ m)
            (some (getString0 "error")),
          Effect.consoleErrorFlowCall m]) := by
  refine ⟨?_, ?_, ?_, ?_⟩
  · intro hok
    simp [customFlowResponseTrace, hok]
  · intro hok
    simp [customFlowResponseTrace, hok]
  · intro hbad parses
    have hne : ("HTTP " ++ toString s) ≠ "" := by
      intro heq
      have hlen := congrArg String.length heq
      rw [String.length_append] at hlen
      have h5 : ("HTTP " : String).length = 5 := rfl
      have h0 : ("" : String).length = 0 := rfl
      rw [h5, h0] at hlen
      omega
    simp [customFlowResponseTrace, hbad,
      errorWhenCallingFlow_format _ hne]
  · intro hm
    simp [customFlowResponseTrace, errorWhenCallingFlow_format _ hm]

/-- Concrete instances: a parseable 200 response completes; a transport
error surfaces the underlying error text in the error alert. -/
theorem customFields_response_classification_witness :
    customFlowResponseTrace (CustomFetchResult.response 200 true) =
      [Effect.closeProgress,
        Effect.alertDialog (getString0 "flowCompletedSuccessfully")
          (some (getString0 "success")),
        Effect.formRefresh] ∧
    customFlowResponseTrace (CustomFetchResult.netError "ECONNRESET") =
      [Effect.closeProgress,
        Effect.alertDialog ("Error when calling flow: " ++ "ECONNRESET")
          (some (getString0 "error")),
        Effect.consoleErrorFlowCall "ECONNRESET"] :=
  ⟨(customFields_response_classification 200 "ECONNRESET").1 (by decide),
    (customFields_response_classification 200 "ECONNRESET").2.2.2 (by decide)⟩

end FlowCaller
